import Mathlib

/-!
Verification of the EduPlatform enrollment/course state-machine layer.

This file gives a shallow embedding of the domain layer of the EduPlatform
backend: the `Enrollment` entity (src/courses/models/interactionCourse_models.py),
the `Course` entity (src/courses/models/course_models.py), and the creation-time
guards of the enrollment and review serializers
(src/courses/Serializers/interactionCourse_serializers.py).

Modelling conventions:
- Django `Decimal` money and percentage columns have two decimal places and
  exact decimal arithmetic; they are embedded as `Int` counted in hundredths
  (cents), so `Decimal("100.00")` is `10000` and `Decimal("999999.99")` is
  `99999999`.  Decimal comparison and subtraction translate directly.
- Timestamps are abstract ticks (`Nat`) where a working clock exists.  The
  course module imports `django.utils.timezone`, so the course operations take
  the current time `now : Nat` standing for `timezone.now()`.  The enrollment
  module instead begins with `from datetime import timezone`:
  `datetime.timezone` is the fixed-offset `tzinfo` class, it has no `now`
  attribute, and nothing in the repository patches it, so every
  `timezone.now()` call in that module raises `AttributeError` at the call
  site.  This is embedded as `EErr.attributeError`: `Enrollment.activate` and
  `complete` raise it on their non-no-op paths (lines 261/282), `refund` on
  its would-be success path (line 341), `update_progress` on every in-range
  call (line 370), and the save hook whenever its auto-complete branch fires
  (line 232).  The exception aborts the call before `super().save`, so
  nothing is persisted.  No surviving enrollment path stamps a timestamp
  (`updated_at` is an `auto_now` column filled in by the field machinery with
  the framework clock and is not read by any logic here), so the enrollment
  operations take no clock parameter.
- A Django model instance is embedded as a structure; `save()` returns the
  persisted state, `Except`-style: `Except.error` means the write was rejected
  (a raised `ValidationError`/`ValueError`) and nothing was persisted.
- Nullable columns are `Option`; non-null columns with a field default start
  at that default when the attribute is omitted at construction, exactly as
  `Model.__init__` applies `Field.get_default()`.
- `full_clean()` runs the declared field validators, the model `clean()` hook
  and the `unique_together` check; the parts relevant to the entities under
  study are carried over field by field.
- Foreign keys that are never null on the code paths under study (the
  enrollment's course) are inlined as the data the code reads from them
  (`coursePrice` is `self.course.price`).
- The `update_fields` bookkeeping in `Enrollment.save` only ever re-adds the
  fields the hook itself mutates, so persisting the whole record is faithful
  on every path modelled here.
-/

namespace EduPlatform

/-- `MIN_COURSE_PRICE = Decimal("5.00")` from src/courses/validators.py, in cents. -/
def MIN_COURSE_PRICE : Int := 500

/-- `MAX_COURSE_PRICE = Decimal("999999.99")` from src/courses/validators.py, in cents. -/
def MAX_COURSE_PRICE : Int := 99999999

/-- `Decimal("100.00")`, the completion percentage ceiling, in hundredths. -/
def FULL_PERCENT : Int := 10000

/-- The `Enrollment.STATUS_*` choices. -/
inductive EStatus where
  | pending
  | active
  | completed
  | cancelled
  | refunded
  | expired
deriving DecidableEq, Repr

/-- Errors raised by the enrollment entity: Django `ValidationError` (from
the explicit raise in `refund` and from `full_clean` inside `save`), the
Python `ValueError` raised by `update_progress`, and the `AttributeError`
raised by every `timezone.now()` call in this module (it resolves to
`datetime.timezone`, which has no `now`). -/
inductive EErr where
  | validation
  | valueError
  | attributeError
deriving DecidableEq, Repr

/-- The columns of `Enrollment` that the lifecycle logic reads or writes
(src/courses/models/interactionCourse_models.py, lines 63-204).
`coursePrice` stands for `self.course.price` (the course FK is non-null).
`enrolled_at`/`updated_at` are auto timestamps never read by the logic and
are left out. -/
structure Enrollment where
  status : EStatus
  transaction_id : Option String
  price_paid : Option Int
  original_price : Option Int
  discount_amount : Int
  coupon_code : String
  refund_amount : Option Int
  refund_reason : String
  refunded_at : Option Nat
  last_accessed_at : Option Nat
  completion_percentage : Int
  completed_at : Option Nat
  activated_at : Option Nat
  coursePrice : Int
deriving DecidableEq, Repr

/-- `MinValueValidator(0.00)` plus `MaxValueValidator(MAX_COURSE_PRICE)` on a
non-null decimal column: `none` fails the not-null check. -/
def moneyValid (o : Option Int) : Bool :=
  o.any (fun v => decide (0 ≤ v) && decide (v ≤ MAX_COURSE_PRICE))

/-- The field validators `full_clean` runs over the decimal columns of
`Enrollment` (the model `clean()` itself checks nothing: it returns after the
objects-assigned guard).  `price_paid` and `original_price` carry
`MinValueValidator(0)`/`MaxValueValidator(MAX_COURSE_PRICE)` and are non-null
columns; `discount_amount` and `refund_amount` carry `MinValueValidator(0)`
(`refund_amount` is nullable); `completion_percentage` is bounded [0, 100]. -/
def Enrollment.clean_fields (e : Enrollment) : Bool :=
  moneyValid e.price_paid &&
  moneyValid e.original_price &&
  decide (0 ≤ e.discount_amount) &&
  e.refund_amount.all (fun v => decide (0 ≤ v)) &&
  decide (0 ≤ e.completion_percentage) &&
  decide (e.completion_percentage ≤ FULL_PERCENT)

/-- `Enrollment.save` (lines 217-245): default `original_price` from the
course price when `None`; compute `price_paid = original_price -
discount_amount` when `None`; then the auto-complete hook — but its very
first statement, `self.completed_at = timezone.now()` (line 232), raises
`AttributeError` (the module's `timezone` is `datetime.timezone`), so
whenever `completion_percentage` is exactly 100.00 with `completed_at`
unset the save aborts before writing anything; otherwise `full_clean` runs
(no caller in the repository skips it) and the state persists. -/
def Enrollment.save (e : Enrollment) : Except EErr Enrollment :=
  let e1 := if e.original_price = none then
      { e with original_price := some e.coursePrice } else e
  let e2 := if e1.price_paid = none then
      { e1 with price_paid := some (e1.original_price.getD 0 - e1.discount_amount) } else e1
  if e2.completion_percentage = FULL_PERCENT ∧ e2.completed_at = none then
    Except.error EErr.attributeError
  else if e2.clean_fields then Except.ok e2 else Except.error EErr.validation

/-- `Enrollment.activate(transaction_id=None)` (lines 247-273): `False` when
already active; otherwise the source sets the status in memory and then
`self.activated_at = timezone.now()` (line 261) raises `AttributeError`, so
the call never reaches `save` and nothing is persisted.  The
`transaction_id` argument is kept for signature fidelity; the crash
precedes its use. -/
def Enrollment.activate (_tid : Option String) (e : Enrollment) :
    Except EErr (Bool × Enrollment) :=
  if e.status = EStatus.active then Except.ok (false, e)
  else Except.error EErr.attributeError

/-- `Enrollment.complete` (lines 275-296): `False` when already completed;
otherwise `self.completed_at = timezone.now()` (line 282) raises
`AttributeError` before `save`. -/
def Enrollment.complete (e : Enrollment) : Except EErr (Bool × Enrollment) :=
  if e.status = EStatus.completed then Except.ok (false, e)
  else Except.error EErr.attributeError

/-- `Enrollment.cancel(reason="")` (lines 298-318): `False` when already
cancelled or refunded; otherwise set status, record a truthy reason into
`refund_reason`, and save — the one lifecycle method with no
`timezone.now()` call of its own, so it persists whenever the save hook
does not fire and the fields validate. -/
def Enrollment.cancel (reason : String) (e : Enrollment) :
    Except EErr (Bool × Enrollment) :=
  if e.status = EStatus.cancelled ∨ e.status = EStatus.refunded then Except.ok (false, e)
  else
    let e1 := { e with status := EStatus.cancelled }
    let e2 := if reason ≠ "" then { e1 with refund_reason := reason } else e1
    (Enrollment.save e2).map (fun r => (true, r))

/-- `Enrollment.refund(amount, reason="")` (lines 320-357): `False` when
already refunded; `ValidationError` when `amount > price_paid`
(`price_paid` is a non-null column, default 0.00, so `getD 0` covers a
state no persisted row has); otherwise the source mutates the refund fields
in memory and `self.refunded_at = timezone.now()` (line 341) raises
`AttributeError` before `save`, so no refund is ever persisted. -/
def Enrollment.refund (amount : Int) (_reason : String) (e : Enrollment) :
    Except EErr (Bool × Enrollment) :=
  if e.status = EStatus.refunded then Except.ok (false, e)
  else if e.price_paid.getD 0 < amount then Except.error EErr.validation
  else Except.error EErr.attributeError

/-- `Enrollment.update_progress(percentage)` (lines 359-385): `ValueError`
outside [0, 100]; in range, `self.last_accessed_at = timezone.now()`
(line 370) raises `AttributeError` before the auto-complete logic and the
save, so no progress update is ever persisted. -/
def Enrollment.update_progress (p : Int) (_e : Enrollment) :
    Except EErr Enrollment :=
  if ¬ (0 ≤ p ∧ p ≤ FULL_PERCENT) then Except.error EErr.valueError
  else Except.error EErr.attributeError

/-- A fresh `Enrollment(student=..., course=..., payment_method=..., ...)`
holding only the Django field defaults, as `Model.__init__` leaves it when
the caller omits every lifecycle column: `status` defaults to pending,
`price_paid` to `Decimal("0.00")` (a non-null column WITH a default),
`original_price` to `None` (a non-null column WITHOUT a default),
`discount_amount` and `completion_percentage` to 0, everything nullable to
`None`.  This is exactly the state `CourseEnrollmentCreateSerializer.create`
builds, since its fields are only course/payment_method/coupon_code. -/
def Enrollment.new (coursePrice : Int) : Enrollment where
  status := EStatus.pending
  transaction_id := none
  price_paid := some 0
  original_price := none
  discount_amount := 0
  coupon_code := ""
  refund_amount := none
  refund_reason := ""
  refunded_at := none
  last_accessed_at := none
  completion_percentage := 0
  completed_at := none
  activated_at := none
  coursePrice := coursePrice

/-- The slice of the `Teacher` profile the course validation reads. -/
structure Teacher where
  is_verified : Bool
deriving DecidableEq, Repr

/-- The slice of the `Education` system the course validation reads. -/
structure Education where
  is_active : Bool
deriving DecidableEq, Repr

/-- The field a course `ValidationError` is attributed to.  The course
validations in clean and the field validators all name one of these. -/
inductive CourseField where
  | teacher
  | education
  | price
deriving DecidableEq, Repr

/-- The columns of `Course` the lifecycle and validation logic reads or
writes (src/courses/models/course_models.py, lines 215-320).  The teacher FK
is a non-null column but may be momentarily unassigned on an in-memory
instance, hence `Option` (the `clean` hook guards on exactly that); the
education FK is nullable by design.  Text and image columns (title, slug,
description, course_img) and the auto timestamps are never read by the
lifecycle logic verified here; the slug derivation queries the slug table
and is outside this slice. -/
structure Course where
  teacher : Option Teacher
  education : Option Education
  price : Option Int
  is_active : Bool
  is_published : Bool
  published_at : Option Nat
  deleted_at : Option Nat
deriving DecidableEq, Repr

/-- The field validators `full_clean` runs for `Course`: the teacher FK is a
non-null column, and `price` carries `MinValueValidator(MIN_COURSE_PRICE)`
and `MaxValueValidator(MAX_COURSE_PRICE)` on a non-null column. -/
def Course.clean_fields (c : Course) : Except CourseField Unit :=
  if c.teacher = none then Except.error CourseField.teacher
  else
    match c.price with
    | none => Except.error CourseField.price
    | some p =>
        if p < MIN_COURSE_PRICE then Except.error CourseField.price
        else if MAX_COURSE_PRICE < p then Except.error CourseField.price
        else Except.ok ()

/-- `Course.clean` (lines 325-356): return early when the teacher or the
education FK is unassigned ("Skip if objects not yet assigned"); otherwise
reject an unverified teacher, an inactive education system, and a null or
non-positive price, in that order, each attributed to its field. -/
def Course.clean (c : Course) : Except CourseField Unit :=
  match c.teacher, c.education with
  | some t, some ed =>
      if ¬ t.is_verified then Except.error CourseField.teacher
      else if ¬ ed.is_active then Except.error CourseField.education
      else
        match c.price with
        | none => Except.error CourseField.price
        | some p => if p ≤ 0 then Except.error CourseField.price else Except.ok ()
  | _, _ => Except.ok ()

/-- Django `full_clean`: field validators, then the `clean` hook. -/
def Course.full_clean (c : Course) : Except CourseField Unit :=
  match c.clean_fields with
  | Except.error f => Except.error f
  | Except.ok _ => c.clean

/-- `Course.save` (lines 358-379): run `full_clean` unless explicitly
skipped (no lifecycle caller skips it) and persist.  The slug derivation on
first save only assigns the slug column, which no claim here reads. -/
def Course.save (c : Course) : Except CourseField Course :=
  match c.full_clean with
  | Except.error f => Except.error f
  | Except.ok _ => Except.ok c

/-- `Course.publish(commit=True)` (lines 431-452): `False` and no write when
already published or not active; else set the flag, stamp `published_at`
only when it was never set, and save. -/
def Course.publish (now : Nat) (c : Course) : Except CourseField (Bool × Course) :=
  if c.is_published ∨ ¬ c.is_active then Except.ok (false, c)
  else
    let c1 := { c with is_published := true }
    let c2 := if c1.published_at = none then { c1 with published_at := some now } else c1
    (Course.save c2).map (fun r => (true, r))

/-- `Course.unpublish(commit=True)` (lines 454-464). -/
def Course.unpublish (c : Course) : Except CourseField (Bool × Course) :=
  if ¬ c.is_published then Except.ok (false, c)
  else (Course.save { c with is_published := false }).map (fun r => (true, r))

/-- `Course.activate` (lines 466-469): set the flag unconditionally, save. -/
def Course.activate (c : Course) : Except CourseField Course :=
  Course.save { c with is_active := true }

/-- `Course.deactivate` (lines 471-475): force `unpublish(commit=True)`
first, then clear `is_active` and save. -/
def Course.deactivate (c : Course) : Except CourseField Course :=
  match Course.unpublish c with
  | Except.error f => Except.error f
  | Except.ok (_, c1) => Course.save { c1 with is_active := false }

/-- `Course.soft_delete` (lines 477-482). -/
def Course.soft_delete (now : Nat) (c : Course) : Except CourseField Course :=
  Course.save { c with is_active := false, is_published := false, deleted_at := some now }

/-- A lifecycle operation on a course, for reasoning about sequences. -/
inductive CourseOp where
  | publish (now : Nat)
  | unpublish
  | activate
  | deactivate
  | soft_delete (now : Nat)
deriving DecidableEq, Repr

/-- Persisted-state semantics of one lifecycle call: when the operation
raises (its `save` rejects the write), nothing is persisted and the stored
row keeps its prior state.  For `deactivate`, both of its internal saves run
`full_clean` on the same teacher/education/price data, so they reject
together and no partial write arises. -/
def Course.applyOp (op : CourseOp) (c : Course) : Course :=
  match op with
  | CourseOp.publish now =>
      match Course.publish now c with
      | Except.ok (_, c2) => c2
      | Except.error _ => c
  | CourseOp.unpublish =>
      match Course.unpublish c with
      | Except.ok (_, c2) => c2
      | Except.error _ => c
  | CourseOp.activate =>
      match Course.activate c with
      | Except.ok c2 => c2
      | Except.error _ => c
  | CourseOp.deactivate =>
      match Course.deactivate c with
      | Except.ok c2 => c2
      | Except.error _ => c
  | CourseOp.soft_delete now =>
      match Course.soft_delete now c with
      | Except.ok c2 => c2
      | Except.error _ => c

/-- A sequence of lifecycle calls, applied left to right. -/
def Course.applyOps (ops : List CourseOp) (c : Course) : Course :=
  ops.foldl (fun acc op => Course.applyOp op acc) c

/-- The published-implies-active invariant over the course flags. -/
def Course.invPubActive (c : Course) : Bool :=
  !c.is_published || c.is_active

/-- The data `CourseEnrollmentCreateSerializer.validate` and the subsequent
model save read about one enrollment-creation request:
whether `hasattr(user, "student_profile")`, the statuses of the existing
`Enrollment` rows for this (student, course) pair, and the course flags. -/
structure EnrollRequest where
  isStudentUser : Bool
  existingStatuses : List EStatus
  courseActive : Bool
  coursePublished : Bool
deriving DecidableEq, Repr

/-- `CourseEnrollmentCreateSerializer.validate` (serializers, lines 54-80),
on the creation path (`self.instance` is `None`): the actor must be a
student; no existing enrollment row for the pair outside
{cancelled, refunded} may exist; the course must be active and published. -/
def enrollmentCreateValidate (r : EnrollRequest) : Except String Unit :=
  if ¬ r.isStudentUser then Except.error "User must be a student to enroll."
  else if r.existingStatuses.any
      (fun s => !(s == EStatus.cancelled || s == EStatus.refunded)) then
    Except.error "You are already enrolled in this course."
  else if ¬ r.courseActive ∨ ¬ r.coursePublished then
    Except.error "This course is not available for enrollment."
  else Except.ok ()

/-- The `unique_together = [["student", "course"]]` check that
`Enrollment.full_clean` (called from `Enrollment.save`) runs on the new row:
it queries for ANY existing row of the pair, regardless of status, and the
unsaved instance excludes no pk. -/
def enrollmentValidateUnique (r : EnrollRequest) : Except String Unit :=
  if r.existingStatuses.isEmpty then Except.ok ()
  else Except.error "Enrollment with this Student and Course already exists."

/-- End-to-end creation through the API boundary: the serializer `validate`,
then the model save of the fresh row, whose `full_clean` runs the no-op
`Enrollment.clean` plus the uniqueness check (the decimal field validators
pass on this path: the serializer sets only course/payment_method/coupon_code
and the defaulted prices of a persistable course are within bounds). -/
def enrollmentCreate (r : EnrollRequest) : Except String Unit :=
  match enrollmentCreateValidate r with
  | Except.error m => Except.error m
  | Except.ok _ => enrollmentValidateUnique r

/-- The data the review-creation pipeline reads about one request:
`user.is_staff or user.is_superuser`, whether the user has a
`student_profile`, the statuses of that student's enrollments for the
course, whether a `Review` row for the (student, course) pair exists, and
the course flags. -/
structure ReviewRequest where
  isStaff : Bool
  isStudentUser : Bool
  enrollmentStatuses : List EStatus
  alreadyReviewed : Bool
  courseActive : Bool
  coursePublished : Bool
deriving DecidableEq, Repr

/-- An enrollment of the acting student in the target course with status
active or completed. -/
def hasQualifyingEnrollment (l : List EStatus) : Bool :=
  l.any (fun s => s == EStatus.active || s == EStatus.completed)

/-- `CourseReviewCreateSerializer.validate_course` (serializers, lines
143-148): the course-level guard, run by DRF as a field validator before
`validate`; note the source condition is `is_active OR is_published`. -/
def reviewValidateCourse (r : ReviewRequest) : Except String Unit :=
  if ¬ (r.courseActive || r.coursePublished) then
    Except.error "Cannot review an inactive or unpublished course."
  else Except.ok ()

/-- `CourseReviewCreateSerializer.validate` (serializers, lines 112-141):
staff and superusers return immediately; otherwise the actor must be a
student with an active-or-completed enrollment who has not already reviewed
the course. -/
def reviewSerializerValidate (r : ReviewRequest) : Except String Unit :=
  if r.isStaff then Except.ok ()
  else if ¬ r.isStudentUser then Except.error "User must be a student to review."
  else if ¬ hasQualifyingEnrollment r.enrollmentStatuses then
    Except.error "You must have an active or completed enrollment to review this course."
  else if r.alreadyReviewed then Except.error "You have already reviewed this course."
  else Except.ok ()

/-- `Review.clean` (interactionCourse_models, lines 455-472): on every save,
require an active-or-completed enrollment of the review's student in the
review's course, whoever triggered the save. -/
def reviewClean (r : ReviewRequest) : Except String Unit :=
  if ¬ hasQualifyingEnrollment r.enrollmentStatuses then
    Except.error "Student must be enrolled to review the course."
  else Except.ok ()

/-- The model save of the new `Review` row: `full_clean` runs `clean` and
then the `unique_together = [["student", "course"]]` check (the rating field
validator passes on this path; the serializer bounds it already). -/
def reviewModelSave (r : ReviewRequest) : Except String Unit :=
  match reviewClean r with
  | Except.error m => Except.error m
  | Except.ok _ =>
      if r.alreadyReviewed then
        Except.error "Review with this Student and Course already exists."
      else Except.ok ()

/-- End-to-end review creation: DRF runs the `validate_course` field guard,
then object-level `validate`; `create` then reads
`self.context["request"].user.student_profile` (an `AttributeError` for a
user without one) and saves the row, which runs the model checks. -/
def createReview (r : ReviewRequest) : Except String Unit :=
  match reviewValidateCourse r with
  | Except.error m => Except.error m
  | Except.ok _ =>
      match reviewSerializerValidate r with
      | Except.error m => Except.error m
      | Except.ok _ =>
          if ¬ r.isStudentUser then
            Except.error "AttributeError: user has no attribute student_profile"
          else reviewModelSave r

/-- A persisted completed enrollment: status completed, `completed_at`
stamped, full progress, price fields as after a 100.00-priced enrollment. -/
def c1completed : Enrollment where
  status := EStatus.completed
  transaction_id := none
  price_paid := some 10000
  original_price := some 10000
  discount_amount := 0
  coupon_code := ""
  refund_amount := none
  refund_reason := ""
  refunded_at := none
  last_accessed_at := none
  completion_percentage := 10000
  completed_at := some 5
  activated_at := some 2
  coursePrice := 10000

/-- A persisted refunded enrollment. -/
def c1refunded : Enrollment :=
  { c1completed with status := EStatus.refunded, refund_amount := some 10000,
                     refunded_at := some 6 }

/-- A persisted active enrollment part-way through the course. -/
def c2active : Enrollment where
  status := EStatus.active
  transaction_id := some "tx-1"
  price_paid := some 10000
  original_price := some 10000
  discount_amount := 0
  coupon_code := ""
  refund_amount := none
  refund_reason := ""
  refunded_at := none
  last_accessed_at := some 4
  completion_percentage := 2500
  completed_at := none
  activated_at := some 2
  coursePrice := 10000

/-- A persisted active enrollment a quarter of the way through the course,
`completed_at` unset. -/
def c3base : Enrollment where
  status := EStatus.active
  transaction_id := some "tx-3"
  price_paid := some 10000
  original_price := some 10000
  discount_amount := 0
  coupon_code := ""
  refund_amount := none
  refund_reason := ""
  refunded_at := none
  last_accessed_at := some 2
  completion_percentage := 2500
  completed_at := none
  activated_at := some 1
  coursePrice := 10000

/-- A draft course by a verified teacher in an active education system. -/
def c4course : Course where
  teacher := some { is_verified := true }
  education := some { is_active := true }
  price := some 10000
  is_active := true
  is_published := false
  published_at := none
  deleted_at := none

/-- The state of `c4course` after its first successful publish at time 9. -/
def c4published : Course :=
  { c4course with is_published := true, published_at := some 9 }

/-- A draft course by a verified teacher, no education system linked. -/
def c5course : Course where
  teacher := some { is_verified := true }
  education := none
  price := some 20000
  is_active := true
  is_published := false
  published_at := none
  deleted_at := none

/-- A published course for exercising `deactivate`. -/
def c5pub : Course :=
  { c5course with is_published := true, published_at := some 1 }

/-- The persisted state after `deactivate` on `c5pub`. -/
def c5deact : Course :=
  { c5pub with is_published := false, is_active := false }

/-- A sample lifecycle sequence. -/
def c5ops : List CourseOp :=
  [CourseOp.publish 1, CourseOp.unpublish, CourseOp.publish 2, CourseOp.deactivate,
   CourseOp.activate, CourseOp.publish 3, CourseOp.soft_delete 4]

/-- A course owned by an unverified teacher with no education system linked
and an in-bounds price. -/
def c6unverified : Course where
  teacher := some { is_verified := false }
  education := none
  price := some 10000
  is_active := true
  is_published := false
  published_at := none
  deleted_at := none

/-- A course owned by an unverified teacher in an active education system. -/
def c6unverifiedLinked : Course :=
  { c6unverified with education := some { is_active := true } }

/-- A course owned by a verified teacher in an inactive education system. -/
def c6inactiveEd : Course where
  teacher := some { is_verified := true }
  education := some { is_active := false }
  price := some 10000
  is_active := true
  is_published := false
  published_at := none
  deleted_at := none

/-- A course by a verified teacher whose price was never set. -/
def c6nullPrice : Course :=
  { c6inactiveEd with education := some { is_active := true }, price := none }

/-- A student re-enrolling in an active, published course after the previous
enrollment for the pair was cancelled. -/
def c7request : EnrollRequest where
  isStudentUser := true
  existingStatuses := [EStatus.cancelled]
  courseActive := true
  coursePublished := true

/-- A staff actor with a student profile but no enrollment at all, reviewing
an active published course for the first time. -/
def c8staff : ReviewRequest where
  isStaff := true
  isStudentUser := true
  enrollmentStatuses := []
  alreadyReviewed := false
  courseActive := true
  coursePublished := true

/-- A non-staff student with an active enrollment and no prior review. -/
def c8student : ReviewRequest where
  isStaff := false
  isStudentUser := true
  enrollmentStatuses := [EStatus.active]
  alreadyReviewed := false
  courseActive := true
  coursePublished := true

/-- An in-memory enrollment at 100.00 percent with `completed_at` unset, not
refunded: the state on which claim C10 speaks. -/
def c10state : Enrollment where
  status := EStatus.active
  transaction_id := some "tx-10"
  price_paid := some 10000
  original_price := some 10000
  discount_amount := 0
  coupon_code := ""
  refund_amount := none
  refund_reason := ""
  refunded_at := none
  last_accessed_at := some 4
  completion_percentage := 10000
  completed_at := none
  activated_at := some 2
  coursePrice := 10000

section Lemmas

/-- A money column passing its validators is non-null and within bounds. -/
theorem moneyValid_some {o : Option Int} (h : moneyValid o = true) :
    ∃ v, o = some v ∧ 0 ≤ v ∧ v ≤ MAX_COURSE_PRICE := by
  cases o with
  | none => simp [moneyValid] at h
  | some v =>
      simp only [moneyValid, Option.any_some, Bool.and_eq_true, decide_eq_true_eq] at h
      exact ⟨v, rfl, h.1, h.2⟩

/-- `Enrollment.save` on a field-valid state whose auto-complete hook does
not fire persists the state unchanged. -/
theorem Enrollment.save_stable (e : Enrollment)
    (hcf : e.clean_fields = true)
    (hhook : ¬ (e.completion_percentage = FULL_PERCENT ∧ e.completed_at = none)) :
    Enrollment.save e = Except.ok e := by
  have h := hcf
  simp only [Enrollment.clean_fields, Bool.and_eq_true] at h
  obtain ⟨⟨⟨⟨⟨h1, h2⟩, h3⟩, h4⟩, h5⟩, h6⟩ := h
  obtain ⟨pp, hpp, -⟩ := moneyValid_some h1
  obtain ⟨op, hop, -⟩ := moneyValid_some h2
  simp [Enrollment.save, hpp, hop, hhook, hcf]

/-- `Enrollment.save` raises `AttributeError` whenever the auto-complete
hook fires: its `completed_at` stamp (line 232) calls the broken
`timezone.now`, and the price-defaulting steps before it never change
`completion_percentage` or `completed_at`. -/
theorem Enrollment.save_hook_crash (e : Enrollment)
    (h100 : e.completion_percentage = FULL_PERCENT) (hca : e.completed_at = none) :
    Enrollment.save e = Except.error EErr.attributeError := by
  simp only [Enrollment.save]
  split_ifs <;> simp_all

/-- A course save that returns `ok` persisted exactly its input. -/
theorem Course.save_ok_eq {c c2 : Course} (h : Course.save c = Except.ok c2) :
    c2 = c := by
  unfold Course.save at h
  cases hfc : Course.full_clean c with
  | error f => rw [hfc] at h; exact Except.noConfusion h
  | ok u =>
      rw [hfc] at h
      simp only [Except.ok.injEq] at h
      exact h.symm

/-- A course whose `full_clean` passes saves unchanged. -/
theorem Course.save_ok (c : Course) (h : Course.full_clean c = Except.ok ()) :
    Course.save c = Except.ok c := by
  unfold Course.save
  rw [h]

/-- Whatever `unpublish` persists is unpublished. -/
theorem Course.unpublish_published (c : Course) (b : Bool) (c1 : Course)
    (h : Course.unpublish c = Except.ok (b, c1)) : c1.is_published = false := by
  by_cases hp : c.is_published = true
  · simp only [Course.unpublish, if_neg (not_not_intro hp)] at h
    cases hsv : Course.save { c with is_published := false } with
    | error f => rw [hsv] at h; exact Except.noConfusion h
    | ok c3 =>
        have h3 := Course.save_ok_eq hsv
        rw [hsv] at h
        simp only [Except.map, Except.ok.injEq, Prod.mk.injEq] at h
        obtain ⟨-, hc⟩ := h
        rw [← hc, h3]
  · simp only [Course.unpublish, if_pos hp] at h
    simp only [Except.ok.injEq, Prod.mk.injEq] at h
    obtain ⟨-, hc⟩ := h
    rw [← hc]
    exact Bool.not_eq_true c.is_published ▸ hp

/-- Whatever `deactivate` persists is unpublished. -/
theorem Course.deactivate_published (c c2 : Course)
    (h : Course.deactivate c = Except.ok c2) : c2.is_published = false := by
  simp only [Course.deactivate] at h
  cases hu : Course.unpublish c with
  | error f => rw [hu] at h; exact Except.noConfusion h
  | ok pr =>
      obtain ⟨b, c1⟩ := pr
      rw [hu] at h
      have h2 := Course.save_ok_eq h
      rw [h2]
      exact Course.unpublish_published c b c1 hu

/-- Each lifecycle call preserves published-implies-active on the persisted
state. -/
theorem Course.applyOp_inv (op : CourseOp) (c : Course)
    (h : Course.invPubActive c = true) :
    Course.invPubActive (Course.applyOp op c) = true := by
  cases op with
  | publish now =>
      simp only [Course.applyOp]
      cases hres : Course.publish now c with
      | error f => exact h
      | ok pr =>
          obtain ⟨b, c2⟩ := pr
          by_cases hguard : c.is_published = true ∨ ¬ (c.is_active = true)
          · simp only [Course.publish, if_pos hguard] at hres
            simp only [Except.ok.injEq, Prod.mk.injEq] at hres
            obtain ⟨-, hc⟩ := hres
            rw [← hc]
            exact h
          · have hact : c.is_active = true := by
              by_contra hna
              exact hguard (Or.inr hna)
            simp only [Course.publish, if_neg hguard] at hres
            by_cases hpa : c.published_at = none
            · rw [if_pos hpa] at hres
              cases hsv : Course.save
                  { c with is_published := true, published_at := some now } with
              | error f => rw [hsv] at hres; exact Except.noConfusion hres
              | ok c3 =>
                  have h3 := Course.save_ok_eq hsv
                  rw [hsv] at hres
                  simp only [Except.map, Except.ok.injEq, Prod.mk.injEq] at hres
                  obtain ⟨-, hc⟩ := hres
                  rw [← hc, h3]
                  simp [Course.invPubActive, hact]
            · rw [if_neg hpa] at hres
              cases hsv : Course.save { c with is_published := true } with
              | error f => rw [hsv] at hres; exact Except.noConfusion hres
              | ok c3 =>
                  have h3 := Course.save_ok_eq hsv
                  rw [hsv] at hres
                  simp only [Except.map, Except.ok.injEq, Prod.mk.injEq] at hres
                  obtain ⟨-, hc⟩ := hres
                  rw [← hc, h3]
                  simp [Course.invPubActive, hact]
  | unpublish =>
      simp only [Course.applyOp]
      cases hres : Course.unpublish c with
      | error f => exact h
      | ok pr =>
          obtain ⟨b, c2⟩ := pr
          have h2 := Course.unpublish_published c b c2 hres
          simp [Course.invPubActive, h2]
  | activate =>
      simp only [Course.applyOp]
      cases hres : Course.activate c with
      | error f => exact h
      | ok c2 =>
          simp only [Course.activate] at hres
          have h2 := Course.save_ok_eq hres
          rw [h2]
          simp [Course.invPubActive]
  | deactivate =>
      simp only [Course.applyOp]
      cases hres : Course.deactivate c with
      | error f => exact h
      | ok c2 =>
          have h2 := Course.deactivate_published c c2 hres
          simp [Course.invPubActive, h2]
  | soft_delete now =>
      simp only [Course.applyOp]
      cases hres : Course.soft_delete now c with
      | error f => exact h
      | ok c2 =>
          simp only [Course.soft_delete] at hres
          have h2 := Course.save_ok_eq hres
          rw [h2]
          simp [Course.invPubActive]

/-- The published-implies-active invariant is preserved by any sequence of
persisted lifecycle calls. -/
theorem Course.applyOps_inv (ops : List CourseOp) : ∀ c : Course,
    Course.invPubActive c = true →
      Course.invPubActive (Course.applyOps ops c) = true := by
  induction ops with
  | nil =>
      intro c h
      simpa [Course.applyOps] using h
  | cons op rest ih =>
      intro c h
      simp only [Course.applyOps, List.foldl_cons]
      have h2 := ih (Course.applyOp op c) (Course.applyOp_inv op c h)
      simpa [Course.applyOps] using h2

end Lemmas

/-- Claim C1 (corrected by `C1_counterexample`): the claim that completed
and refunded are terminal fails, but only through `cancel`.  What holds:
a refunded enrollment is never changed by any lifecycle call — `cancel` and
`refund` are no-ops returning `False`, while `activate`, `complete` and
`update_progress` raise (`AttributeError` from the broken `timezone`
import, or `ValueError` out of range) before persisting anything; a
completed enrollment is preserved by `complete` (no-op), by `activate` and
`update_progress` (which raise before saving) and by `refund` (which raises
a validation error or `AttributeError`); but `cancel` moves a completed
enrollment whose `completed_at` is stamped and whose fields validate to
status cancelled. -/
theorem C1_amended (e : Enrollment) (reason : String) (amount : Int)
    (tid : Option String) (p : Int) :
    (e.status = EStatus.refunded →
      Enrollment.cancel reason e = Except.ok (false, e) ∧
      Enrollment.refund amount reason e = Except.ok (false, e) ∧
      Enrollment.activate tid e = Except.error EErr.attributeError ∧
      Enrollment.complete e = Except.error EErr.attributeError) ∧
    (e.status = EStatus.completed →
      Enrollment.complete e = Except.ok (false, e) ∧
      Enrollment.activate tid e = Except.error EErr.attributeError ∧
      (Enrollment.refund amount reason e = Except.error EErr.validation ∨
        Enrollment.refund amount reason e = Except.error EErr.attributeError)) ∧
    (∀ e2, ¬ Enrollment.update_progress p e = Except.ok e2) ∧
    (e.status = EStatus.completed → e.clean_fields = true → ¬ e.completed_at = none →
      ∃ e2, Enrollment.cancel "" e = Except.ok (true, e2) ∧
        e2.status = EStatus.cancelled) := by
  refine ⟨?_, ?_, ?_, ?_⟩
  · intro h
    refine ⟨?_, ?_, ?_, ?_⟩
    · simp [Enrollment.cancel, h]
    · simp [Enrollment.refund, h]
    · simp [Enrollment.activate, h]
    · simp [Enrollment.complete, h]
  · intro h
    refine ⟨?_, ?_, ?_⟩
    · simp [Enrollment.complete, h]
    · simp [Enrollment.activate, h]
    · by_cases hlt : e.price_paid.getD 0 < amount
      · exact Or.inl (by simp [Enrollment.refund, h, hlt])
      · exact Or.inr (by simp [Enrollment.refund, h, hlt])
  · intro e2
    simp only [Enrollment.update_progress]
    split_ifs <;> simp
  · intro h hcf hca
    simp only [Enrollment.cancel]
    rw [if_neg (by simp [h]), if_neg (by simp)]
    refine ⟨{ e with status := EStatus.cancelled }, ?_, rfl⟩
    rw [Enrollment.save_stable { e with status := EStatus.cancelled }
      hcf (fun hAB => hca hAB.2)]
    rfl

/-- Claim C1 counterexample: a persisted completed enrollment is moved to
status cancelled by `cancel`, so completed is not terminal and the claim as
stated is false. -/
theorem C1_counterexample :
    c1completed.status = EStatus.completed ∧
    (Enrollment.cancel "" c1completed).map (fun pr => pr.2.status) =
      Except.ok EStatus.cancelled :=
  ⟨rfl, rfl⟩

/-- Witness for `C1_amended` at concrete enrollments. -/
theorem C1_amended_witness :
    Enrollment.cancel "late" c1refunded = Except.ok (false, c1refunded) ∧
    Enrollment.activate none c1refunded = Except.error EErr.attributeError ∧
    (∃ e2, Enrollment.cancel "" c1completed = Except.ok (true, e2) ∧
      e2.status = EStatus.cancelled) := by
  refine ⟨((C1_amended c1refunded "late" 0 none 0).1 rfl).1,
    ((C1_amended c1refunded "late" 0 none 0).1 rfl).2.2.1, ?_⟩
  exact (C1_amended c1completed "" 0 none 0).2.2.2 rfl (by decide) (by decide)

/-- Claim C2 (code bug in the source): the no-op and overdraft clauses hold
— refund on an already refunded enrollment returns `False` and changes
nothing, and `amount > price_paid` raises a validation error before any
mutation — but the success clause describes behavior the code cannot
perform: with `amount ≤ price_paid` the source reaches
`self.refunded_at = timezone.now()` (line 341) and raises `AttributeError`
before `save`, so no refund is ever persisted, contradicting the method's
own docstring ("True if refunded successfully"). -/
theorem C2_refund_crash (e : Enrollment) (amount pp : Int) (reason : String)
    (hpp : e.price_paid = some pp) :
    (e.status = EStatus.refunded →
      Enrollment.refund amount reason e = Except.ok (false, e)) ∧
    (¬ e.status = EStatus.refunded → pp < amount →
      Enrollment.refund amount reason e = Except.error EErr.validation) ∧
    (¬ e.status = EStatus.refunded → amount ≤ pp →
      Enrollment.refund amount reason e = Except.error EErr.attributeError) := by
  refine ⟨?_, ?_, ?_⟩
  · intro h
    simp [Enrollment.refund, h]
  · intro h hlt
    simp only [Enrollment.refund]
    rw [if_neg h, if_pos (by rw [hpp]; exact hlt)]
  · intro h hle
    simp only [Enrollment.refund]
    rw [if_neg h, if_neg (by rw [hpp]; exact not_lt.mpr hle)]

/-- Witness for `C2_refund_crash` at a concrete active enrollment: the
overdraft failure and the crash of the would-be success path. -/
theorem C2_witness :
    Enrollment.refund 10001 "too much" c2active = Except.error EErr.validation ∧
    Enrollment.refund 9000 "partial" c2active = Except.error EErr.attributeError :=
  ⟨(C2_refund_crash c2active 10001 10000 "too much" rfl).2.1 (by decide) (by decide),
   (C2_refund_crash c2active 9000 10000 "partial" rfl).2.2 (by decide) (by decide)⟩

/-- Claim C3 (code bug in the source): the out-of-range clause holds —
`update_progress` raises `ValueError` outside [0, 100] — but every in-range
call reaches `self.last_accessed_at = timezone.now()` (line 370) and raises
`AttributeError` before setting anything or saving, so the claimed setting
of `completion_percentage`/`last_accessed_at` and the auto-completion at
100 never happen; `update_progress` never returns successfully. -/
theorem C3_update_progress_crash (p : Int) (e : Enrollment) :
    ((p < 0 ∨ FULL_PERCENT < p) →
      Enrollment.update_progress p e = Except.error EErr.valueError) ∧
    (0 ≤ p → p ≤ FULL_PERCENT →
      Enrollment.update_progress p e = Except.error EErr.attributeError) ∧
    (∀ e2, ¬ Enrollment.update_progress p e = Except.ok e2) := by
  refine ⟨?_, ?_, ?_⟩
  · intro hout
    simp only [Enrollment.update_progress]
    rw [if_pos]
    intro hin
    rcases hout with hlt | hgt
    · exact absurd hin.1 (not_le.mpr hlt)
    · exact absurd hin.2 (not_le.mpr hgt)
  · intro hp0 hpF
    simp only [Enrollment.update_progress]
    rw [if_neg (not_not_intro ⟨hp0, hpF⟩)]
  · intro e2
    simp only [Enrollment.update_progress]
    split_ifs <;> simp

/-- Witness for `C3_update_progress_crash` at a concrete enrollment. -/
theorem C3_witness :
    Enrollment.update_progress 10001 c3base = Except.error EErr.valueError ∧
    Enrollment.update_progress 5000 c3base = Except.error EErr.attributeError :=
  ⟨(C3_update_progress_crash 10001 c3base).1 (Or.inr (by decide)),
   (C3_update_progress_crash 5000 c3base).2.1 (by decide) (by decide)⟩

/-- Claim C4 (confirmed): `publish()` returns `False` and changes nothing
when the course is already published or not active; otherwise (when the
course validates) it sets `is_published` and assigns `published_at` only
when it was never set — the first successful publish stamps it, and no
later `publish()` call ever changes it. -/
theorem C4_publish (now now2 : Nat) (c : Course) (t : Nat) :
    (c.is_published = true ∨ c.is_active = false →
      Course.publish now c = Except.ok (false, c)) ∧
    (c.is_published = false → c.is_active = true → c.published_at = none →
      Course.full_clean c = Except.ok () →
      Course.publish now c = Except.ok (true,
        { c with is_published := true, published_at := some now })) ∧
    (c.is_published = false → c.is_active = true → c.published_at = some t →
      Course.full_clean c = Except.ok () →
      Course.publish now c = Except.ok (true, { c with is_published := true })) ∧
    (c.published_at = some t →
      ∀ b c2, Course.publish now2 c = Except.ok (b, c2) →
        c2.published_at = some t) := by
  refine ⟨?_, ?_, ?_, ?_⟩
  · intro hor
    have hguard : c.is_published = true ∨ ¬ (c.is_active = true) :=
      hor.imp id (fun h2 => by simp [h2])
    simp only [Course.publish]
    rw [if_pos hguard]
  · intro hp ha hpa hfc
    have hguard : ¬ (c.is_published = true ∨ ¬ (c.is_active = true)) := by
      simp [hp, ha]
    simp only [Course.publish]
    rw [if_neg hguard, if_pos hpa,
      Course.save_ok { c with is_published := true, published_at := some now } hfc]
    rfl
  · intro hp ha hpa hfc
    have hguard : ¬ (c.is_published = true ∨ ¬ (c.is_active = true)) := by
      simp [hp, ha]
    have hpa2 : ¬ (({ c with is_published := true } : Course).published_at = none) := by
      simp only []
      rw [show ({ c with is_published := true } : Course).published_at
        = c.published_at from rfl, hpa]
      simp
    simp only [Course.publish]
    rw [if_neg hguard, if_neg hpa2,
      Course.save_ok { c with is_published := true } hfc]
    rfl
  · intro hpa b c2 hpub
    by_cases hguard : c.is_published = true ∨ ¬ (c.is_active = true)
    · simp only [Course.publish, if_pos hguard] at hpub
      simp only [Except.ok.injEq, Prod.mk.injEq] at hpub
      obtain ⟨-, hc⟩ := hpub
      rw [← hc]
      exact hpa
    · simp only [Course.publish, if_neg hguard] at hpub
      have hpa2 : ¬ (({ c with is_published := true } : Course).published_at = none) := by
        rw [show ({ c with is_published := true } : Course).published_at
          = c.published_at from rfl, hpa]
        simp
      rw [if_neg hpa2] at hpub
      cases hsv : Course.save { c with is_published := true } with
      | error f => rw [hsv] at hpub; exact Except.noConfusion hpub
      | ok c3 =>
          have h3 := Course.save_ok_eq hsv
          rw [hsv] at hpub
          simp only [Except.map, Except.ok.injEq, Prod.mk.injEq] at hpub
          obtain ⟨-, hc⟩ := hpub
          rw [← hc, h3]
          exact hpa

/-- Witness for `C4_publish`: first publish stamps `published_at`, a second
publish is a no-op, and the no-op call keeps the original stamp. -/
theorem C4_witness :
    Course.publish 9 c4course = Except.ok (true, c4published) ∧
    Course.publish 11 c4published = Except.ok (false, c4published) ∧
    c4published.published_at = some 9 := by
  have hfirst : Course.publish 9 c4course = Except.ok (true, c4published) :=
    (C4_publish 9 11 c4course 9).2.1 rfl rfl rfl rfl
  have hsecond : Course.publish 11 c4published = Except.ok (false, c4published) :=
    (C4_publish 11 11 c4published 9).1 (Or.inl rfl)
  exact ⟨hfirst, hsecond,
    (C4_publish 11 11 c4published 9).2.2.2 rfl false c4published hsecond⟩

/-- Claim C5 (confirmed): starting from any course satisfying
published-implies-active, the invariant holds after any sequence of
persisted lifecycle calls (`publish`, `unpublish`, `activate`, `deactivate`,
`soft_delete`; a call whose save is rejected persists nothing); and whatever
`deactivate()` persists has `is_published = false`. -/
theorem C5_lifecycle (c : Course) (ops : List CourseOp) :
    (Course.invPubActive c = true →
      Course.invPubActive (Course.applyOps ops c) = true) ∧
    (∀ c2, Course.deactivate c = Except.ok c2 → c2.is_published = false) :=
  ⟨Course.applyOps_inv ops c, fun c2 h => Course.deactivate_published c c2 h⟩

/-- Witness for `C5_lifecycle` on a concrete course and operation list. -/
theorem C5_witness :
    Course.invPubActive (Course.applyOps c5ops c5course) = true ∧
    Course.deactivate c5pub = Except.ok c5deact ∧
    c5deact.is_published = false := by
  refine ⟨(C5_lifecycle c5course c5ops).1 rfl, rfl, ?_⟩
  exact (C5_lifecycle c5pub []).2 c5deact rfl

/-- Claim C6 (corrected by `C6_counterexample`): when the teacher FK and an
education system are both assigned, every persist rejects an unverified
teacher (attributed to the teacher field once the field validators pass),
rejects an inactive education system, and rejects a null or non-positive
price; the price checks also hold with no education system, through the
field validators; but when no education system is linked, the `clean` hook
returns early ("Skip if objects not yet assigned"), so an unverified
teacher's course with a valid price saves successfully. -/
theorem C6_amended (c : Course) (ed : Education) (t : Teacher) (p : Int) :
    (c.teacher = none → Course.save c = Except.error CourseField.teacher) ∧
    (c.education = some ed → ed.is_active = false →
      ∃ f, Course.save c = Except.error f) ∧
    (c.education = some ed → c.teacher = some t → t.is_verified = false →
      ∃ f, Course.save c = Except.error f) ∧
    (c.education = some ed → c.teacher = some t → t.is_verified = false →
      Course.clean_fields c = Except.ok () →
      Course.save c = Except.error CourseField.teacher) ∧
    (c.teacher = some t → c.price = none →
      Course.save c = Except.error CourseField.price) ∧
    (c.teacher = some t → c.price = some p → p ≤ 0 →
      Course.save c = Except.error CourseField.price) ∧
    (c.education = none → c.teacher = some t → c.price = some p →
      MIN_COURSE_PRICE ≤ p → p ≤ MAX_COURSE_PRICE →
      Course.save c = Except.ok c) := by
  refine ⟨?_, ?_, ?_, ?_, ?_, ?_, ?_⟩
  · intro ht
    simp [Course.save, Course.full_clean, Course.clean_fields, ht]
  · intro hed hia
    cases hcf : Course.clean_fields c with
    | error f => exact ⟨f, by simp [Course.save, Course.full_clean, hcf]⟩
    | ok u =>
        cases hT : c.teacher with
        | none => simp [Course.clean_fields, hT] at hcf
        | some t2 =>
            by_cases hv : t2.is_verified = true
            · exact ⟨CourseField.education, by
                simp [Course.save, Course.full_clean, hcf, Course.clean,
                      hT, hed, hv, hia]⟩
            · exact ⟨CourseField.teacher, by
                simp [Course.save, Course.full_clean, hcf, Course.clean,
                      hT, hed, hv]⟩
  · intro hed hT hv
    cases hcf : Course.clean_fields c with
    | error f => exact ⟨f, by simp [Course.save, Course.full_clean, hcf]⟩
    | ok u =>
        exact ⟨CourseField.teacher, by
          simp [Course.save, Course.full_clean, hcf, Course.clean, hT, hed, hv]⟩
  · intro hed hT hv hcf
    simp [Course.save, Course.full_clean, hcf, Course.clean, hT, hed, hv]
  · intro hT hpn
    simp [Course.save, Course.full_clean, Course.clean_fields, hT, hpn]
  · intro hT hp hle
    have hlt : p < MIN_COURSE_PRICE := by
      simp only [MIN_COURSE_PRICE]
      omega
    simp [Course.save, Course.full_clean, Course.clean_fields, hT, hp, hlt]
  · intro hed hT hp h1 h2
    simp [Course.save, Course.full_clean, Course.clean_fields, Course.clean,
          hT, hp, hed, not_lt.mpr h1, not_lt.mpr h2]

/-- Claim C6 counterexample: a course owned by an unverified teacher with no
education system linked and an in-bounds price persists successfully — the
claim that an unverified teacher's course is always rejected is false. -/
theorem C6_counterexample :
    c6unverified.teacher = some { is_verified := false } ∧
    c6unverified.education = none ∧
    Course.save c6unverified = Except.ok c6unverified :=
  ⟨rfl, rfl, rfl⟩

/-- Witness for `C6_amended` at concrete courses. -/
theorem C6_amended_witness :
    (∃ f, Course.save c6inactiveEd = Except.error f) ∧
    Course.save c6unverifiedLinked = Except.error CourseField.teacher ∧
    Course.save c6nullPrice = Except.error CourseField.price := by
  refine ⟨?_, ?_, ?_⟩
  · exact (C6_amended c6inactiveEd { is_active := false }
      { is_verified := true } 0).2.1 rfl rfl
  · exact (C6_amended c6unverifiedLinked { is_active := true }
      { is_verified := false } 0).2.2.2.1 rfl rfl rfl rfl
  · exact (C6_amended c6nullPrice { is_active := true }
      { is_verified := true } 0).2.2.2.2.1 rfl rfl

/-- Claim C7 (code bug): the serializer guard accepts re-enrollment after a
cancelled or refunded enrollment (it excludes exactly those statuses), and
rejects a pending duplicate, a non-student actor and an unavailable course;
but the model save of the new row still runs the
`unique_together [student, course]` validation against the soft-cancelled
row that remains in the table, so end-to-end re-enrollment creation fails —
the claim's "accepted after the existing enrollment is cancelled or
refunded" contradicts the model layer. -/
theorem C7_reenrollment :
    enrollmentCreateValidate c7request = Except.ok () ∧
    enrollmentCreate c7request =
      Except.error "Enrollment with this Student and Course already exists." ∧
    enrollmentCreateValidate { c7request with existingStatuses := [EStatus.pending] } =
      Except.error "You are already enrolled in this course." ∧
    enrollmentCreateValidate { c7request with existingStatuses := [EStatus.expired] } =
      Except.error "You are already enrolled in this course." ∧
    enrollmentCreateValidate { c7request with isStudentUser := false } =
      Except.error "User must be a student to enroll." ∧
    enrollmentCreateValidate
        { c7request with existingStatuses := [], coursePublished := false } =
      Except.error "This course is not available for enrollment." ∧
    enrollmentCreate { c7request with existingStatuses := [] } = Except.ok () :=
  ⟨rfl, rfl, rfl, rfl, rfl, rfl, rfl⟩

/-- Claim C8 (corrected by `C8_counterexample`): a staff actor bypasses only
the serializer-level checks; the model-level `Review.clean` still requires
an active-or-completed enrollment of the acting student and the uniqueness
check still rejects duplicates, so end-to-end review creation succeeds — for
staff and non-staff alike — exactly when the course guard passes (course
active OR published), the actor has a student profile with a qualifying
enrollment, and no prior review of the pair exists; the course-level guard
rejects exactly when the course is neither active nor published. -/
theorem C8_amended (r : ReviewRequest) :
    (createReview r = Except.ok () ↔
      ((r.courseActive || r.coursePublished) = true ∧ r.isStudentUser = true ∧
        hasQualifyingEnrollment r.enrollmentStatuses = true ∧
        r.alreadyReviewed = false)) ∧
    (r.isStaff = true → reviewSerializerValidate r = Except.ok ()) ∧
    (reviewValidateCourse r = Except.ok () ↔
      (r.courseActive || r.coursePublished) = true) := by
  obtain ⟨staff, stud, sts, alr, act, pub⟩ := r
  cases hq : hasQualifyingEnrollment sts <;>
    cases staff <;> cases stud <;> cases alr <;> cases act <;> cases pub <;>
      simp [createReview, reviewValidateCourse, reviewSerializerValidate,
            reviewModelSave, reviewClean, hq]

/-- Claim C8 counterexample: a staff actor with a student profile but no
enrollment, reviewing an active published course, is rejected by the
model-level clean — staff review creation is not enrollment-independent. -/
theorem C8_counterexample :
    c8staff.isStaff = true ∧
    hasQualifyingEnrollment c8staff.enrollmentStatuses = false ∧
    createReview c8staff = Except.error "Student must be enrolled to review the course." :=
  ⟨rfl, rfl, rfl⟩

/-- Witness for `C8_amended`: the staff bypass of the serializer guard and a
successful end-to-end creation by an enrolled student. -/
theorem C8_amended_witness :
    reviewSerializerValidate c8staff = Except.ok () ∧
    createReview c8student = Except.ok () :=
  ⟨(C8_amended c8staff).2.1 rfl, ((C8_amended c8student).1).mpr (by decide)⟩

/-- Claim C9 (code bug in the source): the `original_price` half works — an
unset (`None`) `original_price` is copied from the course price, and an
explicitly-`None` `price_paid` is computed as `original_price -
discount_amount`; but an enrollment created without an explicit `price_paid`
gets the column default `Decimal("0.00")` at construction, so the
`is None` guard never fires and the row persists with `price_paid = 0.00`,
not `original_price - discount_amount`, contradicting the code's own
"Auto-calculate price_paid if not provided" comment. -/
theorem C9_price_defaulting :
    (Enrollment.save (Enrollment.new 10000)).map
        (fun e => (e.original_price, e.price_paid)) =
      Except.ok (some 10000, some 0) ∧
    (Enrollment.save { Enrollment.new 10000 with
        price_paid := none, discount_amount := 1000 }).map (fun e => e.price_paid) =
      Except.ok (some 9000) :=
  ⟨rfl, rfl⟩

/-- Claim C10 (corrected by `C10_counterexample`): the claimed overwrite
never occurs because no refund ever succeeds.  On an enrollment at 100.00
percent with `completed_at` unset and not already refunded, `refund` with
`amount ≤ price_paid` raises `AttributeError` at its `refunded_at` stamp
(line 341) before reaching `save`, persisting nothing; and the persist
hook itself raises `AttributeError` when it fires (its `completed_at` stamp
at line 232 uses the same broken import), so even a direct save of such a
state aborts — the hook can never overwrite a refunded status. -/
theorem C10_amended (e : Enrollment) (amount : Int) (reason : String)
    (h100 : e.completion_percentage = FULL_PERCENT) (hca : e.completed_at = none) :
    (¬ e.status = EStatus.refunded → amount ≤ e.price_paid.getD 0 →
      Enrollment.refund amount reason e = Except.error EErr.attributeError) ∧
    Enrollment.save e = Except.error EErr.attributeError := by
  constructor
  · intro hst hle
    simp only [Enrollment.refund]
    rw [if_neg hst, if_neg (not_lt.mpr hle)]
  · exact Enrollment.save_hook_crash e h100 hca

/-- Claim C10 counterexample: on the concrete state the claim quantifies
over — 100.00 percent, `completed_at` unset, not refunded, `amount ≤
price_paid` — `refund` raises `AttributeError` instead of succeeding, so
no run ends with status completed and recorded refund fields. -/
theorem C10_counterexample :
    c10state.completion_percentage = FULL_PERCENT ∧
    c10state.completed_at = none ∧
    ¬ c10state.status = EStatus.refunded ∧
    Enrollment.refund 5000 "requested" c10state = Except.error EErr.attributeError :=
  ⟨rfl, rfl, by decide, rfl⟩

/-- Witness for `C10_amended` at a concrete enrollment. -/
theorem C10_witness :
    Enrollment.refund 9000 "requested" c10state = Except.error EErr.attributeError ∧
    Enrollment.save c10state = Except.error EErr.attributeError :=
  ⟨(C10_amended c10state 9000 "requested" rfl rfl).1 (by decide) (by decide),
   (C10_amended c10state 9000 "requested" rfl rfl).2⟩

end EduPlatform
